import Mathlib

/-!
Room access-control logic of the chat-room repository.

Shallow embedding of the private-room access-control workflow found in
`src/lib/supabase.ts` and `src/lib/chat-database.ts`:

* the credential hasher `hashPassword` (SHA-256 of the password concatenated
  with a hardcoded salt, rendered as lowercase hex),
* the data-store state (`chat_rooms`, `room_members`, `messages` collections),
* the service operations `createPrivateRoom`, `joinPrivateRoom`,
  `authenticateForPrivateRoom`, `clearPrivateRoomHistory` from `supabase.ts`,
  and `ChatDatabaseService.joinRoom`, `isRoomMember`, `sendMessage` from
  `chat-database.ts`.

The remote Supabase store is modelled as an explicit in-memory state threaded
through each operation; the authenticated user (`getCurrentUser`) is an
`Option String` parameter.
-/

namespace ChatRoom

/-! ## SHA-256 (model of `crypto.subtle.digest('SHA-256', ·)`)

Machine words are `Nat` truncated to 32 bits with `w32`. Bytes are `Nat < 256`.
-/

/-- Truncate to a 32-bit word. -/
def w32 (n : Nat) : Nat := n % 4294967296

/-- 32-bit right rotation (input assumed `< 2^32`). -/
def rotr32 (n x : Nat) : Nat := w32 ((x >>> n) ||| (x <<< (32 - n)))

def shaCh (x y z : Nat) : Nat := (x &&& y) ^^^ ((x ^^^ 4294967295) &&& z)

def shaMaj (x y z : Nat) : Nat := (x &&& y) ^^^ (x &&& z) ^^^ (y &&& z)

def bigSigma0 (x : Nat) : Nat := rotr32 2 x ^^^ rotr32 13 x ^^^ rotr32 22 x

def bigSigma1 (x : Nat) : Nat := rotr32 6 x ^^^ rotr32 11 x ^^^ rotr32 25 x

def smallSigma0 (x : Nat) : Nat := rotr32 7 x ^^^ rotr32 18 x ^^^ (x >>> 3)

def smallSigma1 (x : Nat) : Nat := rotr32 17 x ^^^ rotr32 19 x ^^^ (x >>> 10)

/-- The 64 SHA-256 round constants of FIPS 180-4 (the first 32 bits of the
fractional parts of the cube roots of the first 64 primes), in decimal. -/
def shaK : List Nat :=
  [1116352408, 1899447441, 3049323471, 3921009573, 961987163, 1508970993,
   2453635748, 2870763221, 3624381080, 310598401, 607225278, 1426881987,
   1925078388, 2162078206, 2614888103, 3248222580, 3835390401, 4022224774,
   264347078, 604807628, 770255983, 1249150122, 1555081692, 1996064986,
   2554220882, 2821834349, 2952996808, 3210313671, 3336571891, 3584528711,
   113926993, 338241895, 666307205, 773529912, 1294757372, 1396182291,
   1695183700, 1986661051, 2177026350, 2456956037, 2730485921, 2820302411,
   3259730800, 3345764771, 3516065817, 3600352804, 4094571909, 275423344,
   430227734, 506948616, 659060556, 883997877, 958139571, 1322822218,
   1537002063, 1747873779, 1955562222, 2024104815, 2227730452, 2361852424,
   2428436474, 2756734187, 3204031479, 3329325298]

/-- The eight 32-bit words of the running hash value. -/
structure Hash8 where
  a : Nat
  b : Nat
  c : Nat
  d : Nat
  e : Nat
  f : Nat
  g : Nat
  h : Nat
deriving Repr, DecidableEq

/-- SHA-256 initial hash value, in decimal. -/
def shaH0 : Hash8 :=
  ⟨1779033703, 3144134277, 1013904242, 2773480762,
   1359893119, 2600822924, 528734635, 1541459225⟩

/-- Extend the 16 message words of a block to the 64-entry message schedule. -/
def extendSchedule (w : List Nat) : List Nat :=
  (List.range 48).foldl
    (fun ws _ =>
      let i := ws.length
      let s0 := smallSigma0 (ws.getD (i - 15) 0)
      let s1 := smallSigma1 (ws.getD (i - 2) 0)
      ws ++ [w32 (ws.getD (i - 16) 0 + s0 + ws.getD (i - 7) 0 + s1)])
    w

/-- One round of the SHA-256 compression function. -/
def compressRound (st : Hash8) (kw : Nat × Nat) : Hash8 :=
  let t1 := w32 (st.h + bigSigma1 st.e + shaCh st.e st.f st.g + kw.1 + kw.2)
  let t2 := w32 (bigSigma0 st.a + shaMaj st.a st.b st.c)
  ⟨w32 (t1 + t2), st.a, st.b, st.c, w32 (st.d + t1), st.e, st.f, st.g⟩

/-- Process one 64-byte block. -/
def processBlock (hv : Hash8) (block : List Nat) : Hash8 :=
  let w0 := (List.range 16).map (fun i =>
    block.getD (4 * i) 0 * 16777216 + block.getD (4 * i + 1) 0 * 65536 +
      block.getD (4 * i + 2) 0 * 256 + block.getD (4 * i + 3) 0)
  let st := (shaK.zip (extendSchedule w0)).foldl compressRound hv
  ⟨w32 (hv.a + st.a), w32 (hv.b + st.b), w32 (hv.c + st.c), w32 (hv.d + st.d),
   w32 (hv.e + st.e), w32 (hv.f + st.f), w32 (hv.g + st.g), w32 (hv.h + st.h)⟩

/-- SHA-256 padding: append `0x80`, zeros to 56 mod 64, and the bit length
big-endian in 8 bytes. -/
def padMessage (msg : List Nat) : List Nat :=
  let L := msg.length
  let k := (120 - (L + 1) % 64) % 64
  msg ++ [128] ++ List.replicate k 0 ++
    (List.range 8).map (fun i => ((L * 8) >>> (8 * (7 - i))) % 256)

/-- Split a byte list into 64-byte chunks: the `i`-th chunk is bytes
`64*i` to `64*i + 63`. -/
def chunks64 (l : List Nat) : List (List Nat) :=
  (List.range ((l.length + 63) / 64)).map (fun i => (l.drop (64 * i)).take 64)

/-- Big-endian bytes of a 32-bit word. -/
def wordBytes (w : Nat) : List Nat :=
  [(w >>> 24) % 256, (w >>> 16) % 256, (w >>> 8) % 256, w % 256]

/-- SHA-256 digest of a byte list, as 32 bytes. -/
def sha256Bytes (msg : List Nat) : List Nat :=
  let hv := (chunks64 (padMessage msg)).foldl processBlock shaH0
  wordBytes hv.a ++ wordBytes hv.b ++ wordBytes hv.c ++ wordBytes hv.d ++
    wordBytes hv.e ++ wordBytes hv.f ++ wordBytes hv.g ++ wordBytes hv.h

/-! ## Hex rendering (model of `b.toString(16).padStart(2, '0')` + `join('')`) -/

/-- One lowercase hex digit (`n < 16`). -/
def hexDigit (n : Nat) : Char :=
  if n < 10 then Char.ofNat (48 + n) else Char.ofNat (87 + n)

/-- Digit loop for `Number.prototype.toString(16)`; the fuel argument only
bounds the recursion depth and is always given ample. -/
def hexDigitsGo : Nat → Nat → List Char
  | 0, _ => []
  | fuel + 1, n =>
    if n < 16 then [hexDigit n] else hexDigitsGo fuel (n / 16) ++ [hexDigit (n % 16)]

/-- Digits of `Number.prototype.toString(16)` for a natural number. -/
def hexDigitsCore (n : Nat) : List Char := hexDigitsGo (n + 1) n

/-- Rendering of `b.toString(16).padStart(2, '0')` as a character list. -/
def byteToHexChars (b : Nat) : List Char :=
  let ds := hexDigitsCore b
  List.replicate (2 - ds.length) '0' ++ ds

/-- Model of `hashArray.map(b => b.toString(16).padStart(2, '0')).join('')`. -/
def toHexString (bytes : List Nat) : String :=
  String.mk (bytes.map byteToHexChars).flatten

/-! ## UTF-8 (model of `new TextEncoder().encode(·)`) -/

/-- UTF-8 bytes of one Unicode scalar value. -/
def utf8EncodeScalar (n : Nat) : List Nat :=
  if n < 128 then [n]
  else if n < 2048 then [192 + n / 64, 128 + n % 64]
  else if n < 65536 then [224 + n / 4096, 128 + n / 64 % 64, 128 + n % 64]
  else [240 + n / 262144, 128 + n / 4096 % 64, 128 + n / 64 % 64, 128 + n % 64]

/-- UTF-8 bytes of a string. -/
def utf8Bytes (s : String) : List Nat :=
  (s.data.map (fun c => utf8EncodeScalar c.toNat)).flatten

/-- SHA-256 of a byte list as a lowercase hex string. -/
def sha256hex (msg : List Nat) : String := toHexString (sha256Bytes msg)

/-! ## Password utilities (`src/lib/supabase.ts`) -/

/-- Model of `hashPassword` from `src/lib/supabase.ts`: SHA-256 of the password
concatenated with the hardcoded salt, rendered as lowercase hex. -/
def hashPassword (password : String) : String :=
  sha256hex (utf8Bytes (password ++ "salt_for_client_side"))

/-- Model of `verifyPassword` from `src/lib/supabase.ts`. -/
def verifyPassword (password hashedPassword : String) : Bool :=
  hashPassword password == hashedPassword

/-! ## Data model (the Supabase collections used by the access-control code)

Timestamps (`created_at`, `joined_at`, `updated_at`) play no role in any of
the access-control operations and are omitted; `sendMessage` sets the message
`timestamp` field from the clock, modelled as an explicit `now` argument.
-/

inductive RoomType
  | public'
  | private'
deriving Repr, DecidableEq

/-- A row of the `chat_rooms` table (`DatabaseRoom` in `supabase.ts`). -/
structure DatabaseRoom where
  id : String
  name : String
  type : RoomType
  password_hash : Option String
  owner_id : Option String
  created_by_authenticated_user : Bool
deriving Repr, DecidableEq

/-- A row of the `room_members` table (`DatabaseRoomMember` in `supabase.ts`);
the code only ever tests the presence of a (room, user) pair, so the surrogate
`id` column is omitted. -/
structure DatabaseRoomMember where
  room_id : String
  user_id : String
deriving Repr, DecidableEq

/-- A row of the `messages` table (`DatabaseMessage` in `supabase.ts`). -/
structure DatabaseMessage where
  id : String
  room_id : String
  user_id : Option String
  user_name : String
  user_avatar : Option String
  content : String
  attachments : List String
  timestamp : String
deriving Repr, DecidableEq

/-- The remote data store: the three collections the access-control code
touches, plus a counter from which the store mints fresh row ids. -/
structure Store where
  chat_rooms : List DatabaseRoom
  room_members : List DatabaseRoomMember
  messages : List DatabaseMessage
  nextId : Nat
deriving Repr, DecidableEq

/-- Model of `select().eq('id', roomId).single()` on `chat_rooms`. -/
def findRoom (st : Store) (roomId : String) : Option DatabaseRoom :=
  st.chat_rooms.find? (fun r => r.id == roomId)

/-- Whether `room_members` holds a row for the given (room, user) pair. -/
def memberRowExists (st : Store) (roomId userId : String) : Bool :=
  st.room_members.any (fun m => m.room_id == roomId && m.user_id == userId)

/-- Model of `insert` on `room_members`: the table's `UNIQUE(room_id, user_id)`
constraint rejects a duplicate pair with Postgres error code 23505. -/
def insertRoomMember (st : Store) (roomId userId : String) : Except String Store :=
  if memberRowExists st roomId userId then
    Except.error "23505"
  else
    Except.ok { st with room_members := st.room_members ++ [⟨roomId, userId⟩] }

/-- The `{ success, error? }` result shape the room operations return. -/
structure OpResult where
  success : Bool
  error : Option String
deriving Repr, DecidableEq

/-! ## Room Access Service (`src/lib/supabase.ts`)

`getCurrentUser()` is modelled as the `user : Option String` argument
(the authenticated account's id, or `none`).
-/

/-- Membership insert whose outcome is discarded, as in `createPrivateRoom`,
where the source awaits the `room_members` insert without checking its error:
a constraint failure leaves the store as it was. -/
def insertRoomMemberIgnoringError (st : Store) (roomId userId : String) : Store :=
  match insertRoomMember st roomId userId with
  | Except.ok st1 => st1
  | Except.error _ => st

/-- Model of `createPrivateRoom` from `src/lib/supabase.ts`. The store-side insert of
the room row is modelled as always succeeding (the model's store enforces no
constraint on `chat_rooms`). -/
def createPrivateRoom (st : Store) (user : Option String) (name password : String) :
    (String × Option String) × Store :=
  match user with
  | none => (("", some "Authentication required to create private room"), st)
  | some uid =>
    let rid := "room_" ++ toString st.nextId
    let room : DatabaseRoom :=
      ⟨rid, name, RoomType.private', some (hashPassword password), some uid, true⟩
    let st1 := { st with chat_rooms := st.chat_rooms ++ [room], nextId := st.nextId + 1 }
    ((rid, none), insertRoomMemberIgnoringError st1 rid uid)

/-- Model of `joinPrivateRoom` from `src/lib/supabase.ts`. -/
def joinPrivateRoom (st : Store) (user : Option String) (roomId password : String) :
    OpResult × Store :=
  match user with
  | none => (⟨false, some "Authentication required to join private room"⟩, st)
  | some uid =>
    match findRoom st roomId with
    | none => (⟨false, some "Room not found"⟩, st)
    | some room =>
      if room.type ≠ RoomType.private' then
        (⟨false, some "Not a private room"⟩, st)
      else if ¬ verifyPassword password (room.password_hash.getD "") then
        (⟨false, some "Invalid password"⟩, st)
      else
        match insertRoomMember st roomId uid with
        | Except.ok st1 => (⟨true, none⟩, st1)
        | Except.error code =>
          if code ≠ "23505" then (⟨false, some code⟩, st)
          else (⟨true, none⟩, st)

/-- Model of `authenticateForPrivateRoom` from `src/lib/supabase.ts`: an existing
membership row short-circuits; otherwise fall through to `joinPrivateRoom`. -/
def authenticateForPrivateRoom (st : Store) (user : Option String)
    (roomId password : String) : Bool × Store :=
  match user with
  | none => (false, st)
  | some uid =>
    if memberRowExists st roomId uid then (true, st)
    else
      let r := joinPrivateRoom st user roomId password
      (r.1.success, r.2)

/-- Model of `clearPrivateRoomHistory` from `src/lib/supabase.ts`. -/
def clearPrivateRoomHistory (st : Store) (user : Option String) (roomId : String) :
    OpResult × Store :=
  match user with
  | none => (⟨false, some "Authentication required"⟩, st)
  | some uid =>
    match findRoom st roomId with
    | none => (⟨false, some "Room not found"⟩, st)
    | some room =>
      if room.owner_id ≠ some uid then
        (⟨false, some "Only room owner can clear history"⟩, st)
      else
        (⟨true, none⟩, { st with messages := st.messages.filter (fun m => ¬ m.room_id = roomId) })

/-! ## ChatDatabaseService (`src/lib/chat-database.ts`)

`this.currentUser` is the same `user : Option String` argument.
-/

namespace ChatDatabaseService

/-- Model of `ChatDatabaseService.getRoom`. -/
def getRoom (st : Store) (roomId : String) : Option DatabaseRoom :=
  findRoom st roomId

/-- Model of `ChatDatabaseService.isRoomMember`: `false` with no authenticated user,
otherwise a `room_members` lookup for the pair. -/
def isRoomMember (st : Store) (user : Option String) (roomId : String) : Bool :=
  match user with
  | none => false
  | some uid => memberRowExists st roomId uid

/-- Model of `ChatDatabaseService.joinRoom`. `password` is the optional parameter;
JavaScript's `!password` is true for both an absent and an empty string. -/
def joinRoom (st : Store) (user : Option String) (roomId : String)
    (password : Option String) : OpResult × Store :=
  match getRoom st roomId with
  | none => (⟨false, some "Room not found"⟩, st)
  | some room =>
    match room.type with
    | RoomType.public' => (⟨true, none⟩, st)
    | RoomType.private' =>
      if user.isNone then
        (⟨false, some "Authentication required for private rooms"⟩, st)
      else if password.getD "" == "" then
        (⟨false, some "Password required for private rooms"⟩, st)
      else
        let r := authenticateForPrivateRoom st user roomId (password.getD "")
        if ¬ r.1 then (⟨false, some "Invalid password"⟩, r.2)
        else (⟨true, none⟩, r.2)

/-- The failure branches of `ChatDatabaseService.sendMessage`; the source
returns `null` on each, distinguished only by the `console.error` message
(`'Room not found'` vs `'User is not a member of private room'`). -/
inductive SendError
  | roomNotFound
  | notMember
deriving Repr, DecidableEq

/-- Model of `ChatDatabaseService.sendMessage`. `now` models `new Date().toISOString()`;
the message-row insert is modelled as always succeeding (the store enforces no
constraint on `messages`). `userName || 'Anonymous'` and `userAvatar || null`
treat the empty string as absent, like JavaScript's `||`. -/
def sendMessage (st : Store) (user : Option String) (roomId content : String)
    (userName userAvatar : Option String) (now : String) :
    Except SendError DatabaseMessage × Store :=
  match getRoom st roomId with
  | none => (Except.error SendError.roomNotFound, st)
  | some room =>
    if room.type = RoomType.private' ∧ isRoomMember st user roomId = false then
      (Except.error SendError.notMember, st)
    else
      let msg : DatabaseMessage :=
        { id := "msg_" ++ toString st.nextId
          room_id := roomId
          user_id := user
          user_name := if userName.getD "" == "" then "Anonymous" else userName.getD ""
          user_avatar := if userAvatar.getD "" == "" then none else userAvatar
          content := content
          attachments := []
          timestamp := now }
      (Except.ok msg, { st with messages := st.messages ++ [msg], nextId := st.nextId + 1 })

end ChatDatabaseService

/-! ## Concrete sample data for witness checks -/

/-- Whether a character is a lowercase hexadecimal digit. -/
def isHexChar (c : Char) : Bool :=
  "0123456789abcdef".data.contains c

/-- A concrete private room owned by Alice, password `"4821"`. -/
def sampleRoom : DatabaseRoom :=
  ⟨"r1", "Vault", RoomType.private', some (hashPassword "4821"), some "alice", true⟩

/-- A concrete private room whose stored digest is a short junk string (no
password can hash to it, since digests have 64 characters). -/
def junkRoom : DatabaseRoom :=
  ⟨"r2", "Den", RoomType.private', some "not_a_digest", some "carol", true⟩

/-- A concrete store: two private rooms, no members yet, one message in each
room. -/
def sampleStore : Store :=
  ⟨[sampleRoom, junkRoom],
   [],
   [⟨"m1", "r1", some "alice", "Alice", none, "hello", [], "t0"⟩,
    ⟨"m2", "r2", none, "Bob", none, "yo", [], "t1"⟩],
   5⟩

/-- The sample store with Alice already a member of room `r1`. -/
def memberStore : Store :=
  { sampleStore with room_members := [⟨"r1", "alice"⟩] }

/-! ## Helper lemmas: shape of the hex digest -/

lemma hexDigitsGo_small {fuel n : Nat} (hf : 0 < fuel) (hn : n < 16) :
    hexDigitsGo fuel n = [hexDigit n] := by
  cases fuel with
  | zero => omega
  | succ f => simp [hexDigitsGo, hn]

lemma length_byteToHexChars {b : Nat} (hb : b < 256) :
    (byteToHexChars b).length = 2 := by
  unfold byteToHexChars hexDigitsCore
  by_cases h : b < 16
  · rw [hexDigitsGo_small (by omega) h]
    simp
  · have hstep : hexDigitsGo (b + 1) b = hexDigitsGo b (b / 16) ++ [hexDigit (b % 16)] := by
      simp [hexDigitsGo, h]
    rw [hstep, hexDigitsGo_small (by omega) (by omega)]
    simp

lemma isHexChar_hexDigit {n : Nat} (h : n < 16) : isHexChar (hexDigit n) = true := by
  interval_cases n <;> decide

lemma isHexChar_of_mem_hexDigitsGo :
    ∀ fuel n c, c ∈ hexDigitsGo fuel n → isHexChar c = true := by
  intro fuel
  induction fuel with
  | zero => intro n c hc; simp [hexDigitsGo] at hc
  | succ f ih =>
    intro n c hc
    by_cases h : n < 16
    · simp [hexDigitsGo, h] at hc
      subst hc
      exact isHexChar_hexDigit h
    · simp only [hexDigitsGo, if_neg h, List.mem_append, List.mem_singleton] at hc
      rcases hc with hc | hc
      · exact ih _ _ hc
      · subst hc
        exact isHexChar_hexDigit (Nat.mod_lt _ (by omega))

lemma isHexChar_of_mem_byteToHexChars {b : Nat} {c : Char}
    (hc : c ∈ byteToHexChars b) : isHexChar c = true := by
  unfold byteToHexChars hexDigitsCore at hc
  simp only [List.mem_append, List.mem_replicate] at hc
  rcases hc with hc | hc
  · rw [hc.2]; decide
  · exact isHexChar_of_mem_hexDigitsGo _ _ _ hc

lemma mem_wordBytes_lt {w b : Nat} (hb : b ∈ wordBytes w) : b < 256 := by
  simp only [wordBytes, List.mem_cons, List.not_mem_nil, or_false] at hb
  rcases hb with h | h | h | h <;> subst h <;> exact Nat.mod_lt _ (by omega)

lemma sha256Bytes_length (msg : List Nat) : (sha256Bytes msg).length = 32 := by
  simp [sha256Bytes, wordBytes]

lemma sha256Bytes_lt {msg : List Nat} {b : Nat} (hb : b ∈ sha256Bytes msg) :
    b < 256 := by
  unfold sha256Bytes at hb
  simp only [List.mem_append] at hb
  casesm* _ ∨ _ <;> exact mem_wordBytes_lt (by assumption)

lemma flatten_map_byteToHexChars_length (bytes : List Nat)
    (hb : ∀ b ∈ bytes, b < 256) :
    ((bytes.map byteToHexChars).flatten).length = 2 * bytes.length := by
  induction bytes with
  | nil => simp
  | cons b bs ih =>
    simp only [List.map_cons, List.flatten_cons, List.length_append, List.length_cons]
    rw [length_byteToHexChars (hb b (by simp)), ih (fun x hx => hb x (by simp [hx]))]
    omega

lemma toHexString_length (bytes : List Nat) (hb : ∀ b ∈ bytes, b < 256) :
    (toHexString bytes).length = 2 * bytes.length := by
  show ((bytes.map byteToHexChars).flatten).length = 2 * bytes.length
  exact flatten_map_byteToHexChars_length bytes hb

lemma hashPassword_length (p : String) : (hashPassword p).length = 64 := by
  unfold hashPassword sha256hex
  rw [toHexString_length _ (fun b hb => sha256Bytes_lt hb), sha256Bytes_length]

lemma hashPassword_ne_of_length {p s : String} (h : s.length ≠ 64) :
    hashPassword p ≠ s := by
  intro he
  exact h (he ▸ hashPassword_length p)

/-! ## Helper lemmas: the store operations -/

lemma insertRoomMemberIgnoringError_chat_rooms (st : Store) (r u : String) :
    (insertRoomMemberIgnoringError st r u).chat_rooms = st.chat_rooms := by
  by_cases h : memberRowExists st r u <;>
    simp [insertRoomMemberIgnoringError, insertRoomMember, h]

lemma memberRowExists_insertRoomMemberIgnoringError (st : Store) (r u : String) :
    memberRowExists (insertRoomMemberIgnoringError st r u) r u = true := by
  cases h : memberRowExists st r u with
  | true => simp [insertRoomMemberIgnoringError, insertRoomMember, h]
  | false =>
    simp only [insertRoomMemberIgnoringError, insertRoomMember, h, Bool.false_eq_true,
      if_false]
    simp [memberRowExists, List.any_append]

lemma joinPrivateRoom_fresh_eq
    (st : Store) (uid roomId password : String) (room : DatabaseRoom)
    (hroom : findRoom st roomId = some room)
    (htype : room.type = RoomType.private')
    (hpw : hashPassword password = room.password_hash.getD "")
    (hfresh : memberRowExists st roomId uid = false) :
    joinPrivateRoom st (some uid) roomId password =
      (⟨true, none⟩, { st with room_members := st.room_members ++ [⟨roomId, uid⟩] }) := by
  simp [joinPrivateRoom, hroom, htype, verifyPassword, hpw, insertRoomMember, hfresh]

/-! ## The claims -/

/-- C1: on a fresh private room (authenticated account, room exists, kind
private, account not yet a member), `joinPrivateRoom` with a password whose
digest equals the stored digest succeeds, and immediately afterwards
`isRoomMember` holds for the acting account. -/
theorem joinPrivateRoom_correct_password_admits
    (st : Store) (uid roomId password : String) (room : DatabaseRoom)
    (hroom : findRoom st roomId = some room)
    (htype : room.type = RoomType.private')
    (hpw : hashPassword password = room.password_hash.getD "")
    (hfresh : memberRowExists st roomId uid = false) :
    (joinPrivateRoom st (some uid) roomId password).1 = ⟨true, none⟩ ∧
    ChatDatabaseService.isRoomMember (joinPrivateRoom st (some uid) roomId password).2
      (some uid) roomId = true := by
  rw [joinPrivateRoom_fresh_eq st uid roomId password room hroom htype hpw hfresh]
  refine ⟨rfl, ?_⟩
  simp [ChatDatabaseService.isRoomMember, memberRowExists, List.any_append]

/-- Witness for C1: Bob joins the sample room `r1` with the correct
password. -/
theorem joinPrivateRoom_correct_password_admits_witness :
    (joinPrivateRoom sampleStore (some "bob") "r1" "4821").1 = ⟨true, none⟩ ∧
    ChatDatabaseService.isRoomMember
      (joinPrivateRoom sampleStore (some "bob") "r1" "4821").2 (some "bob") "r1" = true :=
  joinPrivateRoom_correct_password_admits sampleStore "bob" "r1" "4821" sampleRoom
    rfl rfl rfl (by decide)

/-- C2: on an existing private room, `joinPrivateRoom` with a password whose
digest differs from the stored digest returns the invalid-password failure and
leaves the store — in particular the membership records — exactly unchanged. -/
theorem joinPrivateRoom_wrong_password
    (st : Store) (uid roomId password : String) (room : DatabaseRoom)
    (hroom : findRoom st roomId = some room)
    (htype : room.type = RoomType.private')
    (hpw : hashPassword password ≠ room.password_hash.getD "") :
    joinPrivateRoom st (some uid) roomId password =
      (⟨false, some "Invalid password"⟩, st) := by
  simp [joinPrivateRoom, hroom, htype, verifyPassword, beq_iff_eq, hpw]

/-- Witness for C2: Bob fails to join room `r2`, whose stored digest is a
12-character string no password can hash to. -/
theorem joinPrivateRoom_wrong_password_witness :
    joinPrivateRoom sampleStore (some "bob") "r2" "0000" =
      (⟨false, some "Invalid password"⟩, sampleStore) :=
  joinPrivateRoom_wrong_password sampleStore "bob" "r2" "0000" junkRoom rfl rfl
    (hashPassword_ne_of_length (by decide))

/-- C3: admission is idempotent — joining twice with the correct password
succeeds both times, the second membership insert is the uniqueness violation
`"23505"` normalized to success, and exactly one membership record for the
(room, account) pair results. -/
theorem joinPrivateRoom_idempotent
    (st : Store) (uid roomId password : String) (room : DatabaseRoom)
    (hroom : findRoom st roomId = some room)
    (htype : room.type = RoomType.private')
    (hpw : hashPassword password = room.password_hash.getD "")
    (hfresh : memberRowExists st roomId uid = false) :
    (joinPrivateRoom st (some uid) roomId password).1.success = true ∧
    (joinPrivateRoom (joinPrivateRoom st (some uid) roomId password).2
        (some uid) roomId password).1.success = true ∧
    insertRoomMember (joinPrivateRoom st (some uid) roomId password).2 roomId uid =
      Except.error "23505" ∧
    ((joinPrivateRoom (joinPrivateRoom st (some uid) roomId password).2
        (some uid) roomId password).2.room_members.countP
      (fun m => m.room_id == roomId && m.user_id == uid)) = 1 := by
  rw [joinPrivateRoom_fresh_eq st uid roomId password room hroom htype hpw hfresh]
  have hmem1 : memberRowExists
      { st with room_members := st.room_members ++ [⟨roomId, uid⟩] } roomId uid = true := by
    simp [memberRowExists, List.any_append]
  have hins : insertRoomMember
      { st with room_members := st.room_members ++ [⟨roomId, uid⟩] } roomId uid =
      Except.error "23505" := by
    simp [insertRoomMember, hmem1]
  have hroom1 : findRoom { st with room_members := st.room_members ++ [⟨roomId, uid⟩] }
      roomId = some room := hroom
  have h2 : joinPrivateRoom { st with room_members := st.room_members ++ [⟨roomId, uid⟩] }
      (some uid) roomId password =
      (⟨true, none⟩, { st with room_members := st.room_members ++ [⟨roomId, uid⟩] }) := by
    simp [joinPrivateRoom, hroom1, htype, verifyPassword, hpw, hins]
  rw [h2]
  refine ⟨rfl, rfl, hins, ?_⟩
  have hcount0 : st.room_members.countP
      (fun m => m.room_id == roomId && m.user_id == uid) = 0 := by
    rw [List.countP_eq_zero]
    intro m hm
    intro hpm
    have : st.room_members.any (fun m => m.room_id == roomId && m.user_id == uid) = true :=
      List.any_eq_true.mpr ⟨m, hm, hpm⟩
    rw [memberRowExists] at hfresh
    rw [this] at hfresh
    cases hfresh
  simp [List.countP_append, hcount0, List.countP_cons]

/-- Witness for C3: Bob joins the sample room `r1` twice with the correct
password. -/
theorem joinPrivateRoom_idempotent_witness :
    (joinPrivateRoom sampleStore (some "bob") "r1" "4821").1.success = true ∧
    (joinPrivateRoom (joinPrivateRoom sampleStore (some "bob") "r1" "4821").2
        (some "bob") "r1" "4821").1.success = true ∧
    insertRoomMember (joinPrivateRoom sampleStore (some "bob") "r1" "4821").2 "r1" "bob" =
      Except.error "23505" ∧
    ((joinPrivateRoom (joinPrivateRoom sampleStore (some "bob") "r1" "4821").2
        (some "bob") "r1" "4821").2.room_members.countP
      (fun m => m.room_id == "r1" && m.user_id == "bob")) = 1 :=
  joinPrivateRoom_idempotent sampleStore "bob" "r1" "4821" sampleRoom rfl rfl rfl (by decide)

/-- C4: clearing history as the room's recorded owner succeeds; afterwards no
message of that room remains, every message of any other room survives, and no
message appears that was not already stored. -/
theorem clearPrivateRoomHistory_owner_clears
    (st : Store) (uid roomId : String) (room : DatabaseRoom)
    (hroom : findRoom st roomId = some room)
    (howner : room.owner_id = some uid) :
    (clearPrivateRoomHistory st (some uid) roomId).1 = ⟨true, none⟩ ∧
    (∀ m ∈ (clearPrivateRoomHistory st (some uid) roomId).2.messages,
        ¬ m.room_id = roomId) ∧
    (∀ m ∈ st.messages, ¬ m.room_id = roomId →
        m ∈ (clearPrivateRoomHistory st (some uid) roomId).2.messages) ∧
    (∀ m ∈ (clearPrivateRoomHistory st (some uid) roomId).2.messages,
        m ∈ st.messages) := by
  have heq : clearPrivateRoomHistory st (some uid) roomId =
      (⟨true, none⟩,
       { st with messages := st.messages.filter (fun m => ¬ m.room_id = roomId) }) := by
    simp [clearPrivateRoomHistory, hroom, howner]
  rw [heq]
  refine ⟨rfl, ?_, ?_, ?_⟩ <;> intro m hm <;> simp_all [List.mem_filter]

/-- Witness for C4: Alice, the owner, clears room `r1` of the sample store. -/
theorem clearPrivateRoomHistory_owner_clears_witness :
    (clearPrivateRoomHistory sampleStore (some "alice") "r1").1 = ⟨true, none⟩ ∧
    (∀ m ∈ (clearPrivateRoomHistory sampleStore (some "alice") "r1").2.messages,
        ¬ m.room_id = "r1") ∧
    (∀ m ∈ sampleStore.messages, ¬ m.room_id = "r1" →
        m ∈ (clearPrivateRoomHistory sampleStore (some "alice") "r1").2.messages) ∧
    (∀ m ∈ (clearPrivateRoomHistory sampleStore (some "alice") "r1").2.messages,
        m ∈ sampleStore.messages) :=
  clearPrivateRoomHistory_owner_clears sampleStore "alice" "r1" sampleRoom rfl rfl

/-- C5: clearing history on an existing room as an authenticated account that
is not the recorded owner fails with the owner-only error and leaves the
store — in particular the message records — exactly unchanged. -/
theorem clearPrivateRoomHistory_non_owner
    (st : Store) (uid roomId : String) (room : DatabaseRoom)
    (hroom : findRoom st roomId = some room)
    (howner : room.owner_id ≠ some uid) :
    clearPrivateRoomHistory st (some uid) roomId =
      (⟨false, some "Only room owner can clear history"⟩, st) := by
  simp [clearPrivateRoomHistory, hroom, howner]

/-- Witness for C5: Bob, who does not own room `r1`, cannot clear it. -/
theorem clearPrivateRoomHistory_non_owner_witness :
    clearPrivateRoomHistory sampleStore (some "bob") "r1" =
      (⟨false, some "Only room owner can clear history"⟩, sampleStore) :=
  clearPrivateRoomHistory_non_owner sampleStore "bob" "r1" sampleRoom rfl (by decide)

/-- C6: sending a message to an existing private room as an account for which
`isRoomMember` is false fails on the membership check and inserts no message
record — the store is exactly unchanged. -/
theorem sendMessage_non_member
    (st : Store) (user : Option String) (roomId content : String)
    (userName userAvatar : Option String) (now : String) (room : DatabaseRoom)
    (hroom : ChatDatabaseService.getRoom st roomId = some room)
    (htype : room.type = RoomType.private')
    (hmem : ChatDatabaseService.isRoomMember st user roomId = false) :
    ChatDatabaseService.sendMessage st user roomId content userName userAvatar now =
      (Except.error ChatDatabaseService.SendError.notMember, st) := by
  simp [ChatDatabaseService.sendMessage, hroom, htype, hmem]

/-- Witness for C6: Carol, not a member of private room `r1`, cannot send. -/
theorem sendMessage_non_member_witness :
    ChatDatabaseService.sendMessage sampleStore (some "carol") "r1" "hi" none none "t2" =
      (Except.error ChatDatabaseService.SendError.notMember, sampleStore) :=
  sendMessage_non_member sampleStore (some "carol") "r1" "hi" none none "t2" sampleRoom
    rfl rfl (by decide)

/-- C7: the credential hasher is a total deterministic function on arbitrary
strings: `digest(p) = digest(p)`; it equals the SHA-256 hex digest of the
password concatenated with the single hardcoded salt; and its output is a
fixed-length (64-character) lowercase-hexadecimal string. Totality and absence
of side effects are inherent in its type: a plain function on strings. -/
theorem hashPassword_deterministic_fixed_hex (p : String) :
    hashPassword p = hashPassword p ∧
    hashPassword p = sha256hex (utf8Bytes (p ++ "salt_for_client_side")) ∧
    (hashPassword p).length = 64 ∧
    ∀ c ∈ (hashPassword p).data, isHexChar c = true := by
  refine ⟨rfl, rfl, hashPassword_length p, ?_⟩
  intro c hc
  have hc2 : c ∈ ((sha256Bytes (utf8Bytes (p ++ "salt_for_client_side"))).map
      byteToHexChars).flatten := hc
  rcases List.mem_flatten.mp hc2 with ⟨l, hl, hcl⟩
  rcases List.mem_map.mp hl with ⟨b, hb, hbl⟩
  exact isHexChar_of_mem_byteToHexChars (hbl ▸ hcl)

/-- C8: unauthenticated room creation fails and leaves the store unchanged;
authenticated creation returns the fresh room id with no error, inserts the
room record (kind private, digest of the password, owner = acting account),
and ends with a creator membership present. -/
theorem createPrivateRoom_inserts_room_and_membership
    (st : Store) (uid name password : String) :
    createPrivateRoom st none name password =
      (("", some "Authentication required to create private room"), st) ∧
    (createPrivateRoom st (some uid) name password).1.2 = none ∧
    (createPrivateRoom st (some uid) name password).1.1 = "room_" ++ toString st.nextId ∧
    (⟨"room_" ++ toString st.nextId, name, RoomType.private',
        some (hashPassword password), some uid, true⟩ : DatabaseRoom) ∈
      (createPrivateRoom st (some uid) name password).2.chat_rooms ∧
    memberRowExists (createPrivateRoom st (some uid) name password).2
      ("room_" ++ toString st.nextId) uid = true := by
  refine ⟨rfl, rfl, rfl, ?_, ?_⟩
  · simp only [createPrivateRoom]
    rw [insertRoomMemberIgnoringError_chat_rooms]
    simp
  · simp only [createPrivateRoom]
    exact memberRowExists_insertRoomMemberIgnoringError _ _ _

/-- C9: the service-level `joinRoom` checks room existence first — on an
absent room id it returns the not-found failure whatever the acting account,
and the authentication-required and wrong-kind failures can only arise for
rooms that exist. -/
theorem joinRoom_checks_existence_first
    (st : Store) (user : Option String) (roomId : String) (password : Option String) :
    (ChatDatabaseService.getRoom st roomId = none →
      ChatDatabaseService.joinRoom st user roomId password =
        (⟨false, some "Room not found"⟩, st)) ∧
    (((ChatDatabaseService.joinRoom st user roomId password).1.error =
          some "Authentication required for private rooms" ∨
      (ChatDatabaseService.joinRoom st user roomId password).1.error =
          some "Not a private room") →
      (ChatDatabaseService.getRoom st roomId).isSome = true) := by
  constructor
  · intro h
    simp [ChatDatabaseService.joinRoom, h]
  · intro h
    cases hr : ChatDatabaseService.getRoom st roomId with
    | some room => rfl
    | none => simp [ChatDatabaseService.joinRoom, hr] at h

/-- Witness for C9: an absent room id fails not-found even with no acting
account present. -/
theorem joinRoom_checks_existence_first_witness :
    ChatDatabaseService.joinRoom sampleStore none "nope" (some "4821") =
      (⟨false, some "Room not found"⟩, sampleStore) :=
  (joinRoom_checks_existence_first sampleStore none "nope" (some "4821")).1 rfl

/-- C10 counterexample: Alice already holds a membership record for `r1`, yet
the service `joinRoom` with the supplied empty-string password is rejected by
the `!password` guard before the membership lookup, so success is not returned
for every supplied password. -/
theorem joinRoom_member_counterexample :
    ChatDatabaseService.isRoomMember memberStore (some "alice") "r1" = true ∧
    (ChatDatabaseService.joinRoom memberStore (some "alice") "r1" (some "")).1 =
      ⟨false, some "Password required for private rooms"⟩ := by
  decide

/-- C10 amended: if the acting account already holds a membership record for
an existing private room, the service `joinRoom` succeeds for every non-empty
supplied password — including ones whose digest does not match — because the
membership lookup short-circuits password verification. -/
theorem joinRoom_member_shortcut
    (st : Store) (uid roomId password : String) (room : DatabaseRoom)
    (hroom : ChatDatabaseService.getRoom st roomId = some room)
    (htype : room.type = RoomType.private')
    (hmem : memberRowExists st roomId uid = true)
    (hpw : password ≠ "") :
    ChatDatabaseService.joinRoom st (some uid) roomId (some password) =
      (⟨true, none⟩, st) := by
  simp [ChatDatabaseService.joinRoom, hroom, htype, authenticateForPrivateRoom, hmem, hpw]

/-- Witness for C10 (amended): member Alice re-joins `r1` with the wrong,
non-empty password `"9999"` and succeeds. -/
theorem joinRoom_member_shortcut_witness :
    ChatDatabaseService.joinRoom memberStore (some "alice") "r1" (some "9999") =
      (⟨true, none⟩, memberStore) :=
  joinRoom_member_shortcut memberStore "alice" "r1" "9999" sampleRoom rfl rfl
    (by decide) (by decide)

end ChatRoom
